import Mathlib

/-!
Verification development for the daadubot Binance-futures signal bot
(src/index.py).  Shallow embedding: Python floats are modelled as rationals,
pandas NaN as Option.none, the JSON-backed last_signals dictionary as an
association list, and the network fetch outcome as an Option/Bool oracle
parameter.
-/

/-- Trading side of a signal, as produced by generate_signal. -/
inductive Side
  | BUY
  | SELL
  deriving DecidableEq

/-- Chart timeframes offered by the bot keyboards (1m, 5m, 15m, 1h). -/
inductive Tf
  | m1
  | m5
  | m15
  | h1
  deriving DecidableEq

/-- Per-chat settings dictionary: the DEFAULT_SETTINGS keys used by the
scanner (src/index.py lines 41-46). -/
structure Settings where
  rsi_buy : ℚ
  rsi_sell : ℚ
  signal_validity_min : ℤ
  leverage_cap : ℤ
  deriving DecidableEq

/-- Last-candle indicator values extracted in generate_signal (src/index.py
lines 282-286): price, RSI, MACD and its signal line, EMA20, EMA50 and the
optional ATR (none for a pandas NaN). -/
structure Ind where
  price : ℚ
  rsi : ℚ
  macd : ℚ
  macd_sig : ℚ
  ema20 : ℚ
  ema50 : ℚ
  atr : Option ℚ
  deriving DecidableEq

/-- Entry, stop loss and take-profit levels of a generated signal. -/
structure TradePlan where
  entry : ℚ
  sl : ℚ
  tp1 : ℚ
  tp2 : ℚ
  deriving DecidableEq

/-- series.diff() (src/index.py line 195): first element NaN, then successive
differences. -/
def pdDiff (xs : List ℚ) : List (Option ℚ) :=
  match xs with
  | [] => []
  | _ :: rest => none :: List.zipWith (fun b a => some (b - a)) rest xs

/-- pandas rolling(window=p).mean() with the default min_periods = p: a
position with fewer than p observations, or with a NaN inside its window,
yields NaN (src/index.py lines 198-199). -/
def rollingMean (p : ℕ) (xs : List (Option ℚ)) : List (Option ℚ) :=
  (List.range xs.length).map (fun i =>
    if i + 1 < p then none
    else
      let w := (xs.take (i + 1)).drop (i + 1 - p)
      if w.any (fun o => o.isNone) then none
      else some ((w.filterMap id).sum / (p : ℚ)))

/-- Elementwise ma_up / ma_down.replace(0, nan) (src/index.py line 200): a NaN
operand or a zero denominator gives NaN. -/
def optDiv (a b : Option ℚ) : Option ℚ :=
  match a, b with
  | some x, some y => if y = 0 then none else some (x / y)
  | _, _ => none

/-- delta.clip(lower=0) (src/index.py line 196): positive part of each
difference. -/
def rsiUp (xs : List ℚ) : List (Option ℚ) :=
  (pdDiff xs).map (fun o => o.map (fun d => max d 0))

/-- -delta.clip(upper=0) (src/index.py line 197): magnitude of each negative
difference. -/
def rsiDown (xs : List ℚ) : List (Option ℚ) :=
  (pdDiff xs).map (fun o => o.map (fun d => max (-d) 0))

/-- rs = ma_up / ma_down.replace(0, nan) (src/index.py line 200). -/
def rsiRS (p : ℕ) (xs : List ℚ) : List (Option ℚ) :=
  List.zipWith optDiv (rollingMean p (rsiUp xs)) (rollingMean p (rsiDown xs))

/-- out = 100 - 100 / (1 + rs), before fillna (src/index.py line 201). -/
def rsiRaw (p : ℕ) (xs : List ℚ) : List (Option ℚ) :=
  (rsiRS p xs).map (fun o => o.map (fun r => 100 - 100 / (1 + r)))

/-- rsi(series, period) of src/index.py lines 194-202, ending in fillna(50),
which replaces every NaN position with the number 50. -/
def rsi (xs : List ℚ) (period : ℕ) : List ℚ :=
  (rsiRaw period xs).map (fun o => o.getD 50)

/-- The side decision of generate_signal (src/index.py lines 291-298): strict
comparisons of RSI against the thresholds, MACD against its signal line and
EMA20 against EMA50, all three required. -/
def signalSide (st : Settings) (v : Ind) : Option Side :=
  if v.rsi < st.rsi_buy ∧ v.macd > v.macd_sig ∧ v.ema20 > v.ema50 then some Side.BUY
  else if v.rsi > st.rsi_sell ∧ v.macd < v.macd_sig ∧ v.ema20 < v.ema50 then some Side.SELL
  else none

/-- atr = atr_v if atr_v and atr_v > 0 else price * 0.005 (src/index.py line
301): a missing, zero or negative ATR falls back to 0.5 percent of price. -/
def effAtr (atr_v : Option ℚ) (price : ℚ) : ℚ :=
  match atr_v with
  | some a => if a > 0 then a else price * (5 / 1000)
  | none => price * (5 / 1000)

/-- Entry, stop loss and the two take profits of src/index.py lines 302-310. -/
def tradePlan (side : Side) (price : ℚ) (atr_v : Option ℚ) : TradePlan :=
  let a := effAtr atr_v price
  match side with
  | Side.BUY => ⟨price, price - a, price + (3 / 2) * a, price + 3 * a⟩
  | Side.SELL => ⟨price, price + a, price - (3 / 2) * a, price - 3 * a⟩

/-- Python 3 round() on a rational: nearest integer, ties to even. -/
def pyRound (q : ℚ) : ℤ :=
  if q - ⌊q⌋ < 1 / 2 then ⌊q⌋
  else if q - ⌊q⌋ > 1 / 2 then ⌊q⌋ + 1
  else if ⌊q⌋ % 2 = 0 then ⌊q⌋ else ⌊q⌋ + 1

/-- leverage_suggestion (src/index.py lines 260-268): a missing or NaN ATR, a
non-positive price or a non-positive volatility ratio falls back to
max(1, min(cap, 10)); otherwise inverse volatility scaling
min(cap, max(1, round(0.5 / vol_pct))). -/
def leverage_suggestion (atr_value : Option ℚ) (price : ℚ) (cap : ℤ) : ℤ :=
  match atr_value with
  | none => max 1 (min cap 10)
  | some a =>
    if price ≤ 0 then max 1 (min cap 10)
    else if a / price ≤ 0 then max 1 (min cap 10)
    else min cap (max 1 (pyRound ((1 / 2) / (a / price))))

/-- generate_signal (src/index.py lines 270-320) with the candle fetch and the
indicator pipeline abstracted into an optional indicator record (none models a
failed fetch or empty frame, lines 271-273): produces the side, the trade plan
and the leverage suggestion carried by the message, or none when no rule
fires. -/
def generate_signal (st : Settings) (data : Option Ind) : Option (Side × TradePlan × ℤ) :=
  match data with
  | none => none
  | some v =>
    match signalSide st v with
    | none => none
    | some side =>
        some (side, tradePlan side v.price v.atr,
          leverage_suggestion v.atr v.price st.leverage_cap)

/-- One symbol of the scanner loop body (src/index.py lines 416-419): an alert
is considered for sending iff generate_signal at the single subscribed
interval returns a message.  The snapshot function gives the market data the
code would compute at each interval. -/
def alertQualifies (st : Settings) (snap : Tf → Option Ind) (interval : Tf) : Bool :=
  (generate_signal st (snap interval)).isSome

/-- Lookup in the last_sig dictionary, modelled as an association list. -/
def gateLookup {K : Type} [DecidableEq K] : List (K × ℤ) → K → Option ℤ
  | [], _ => none
  | (k', t') :: rest, k => if k' = k then some t' else gateLookup rest k

/-- last_sig[key] = now (src/index.py line 425): update the existing entry or
append a new one. -/
def gateInsert {K : Type} [DecidableEq K] : List (K × ℤ) → K → ℤ → List (K × ℤ)
  | [], k, t => [(k, t)]
  | (k', t') :: rest, k, t =>
      if k' = k then (k, t) :: rest else (k', t') :: gateInsert rest k t

/-- The admission test of src/index.py line 422: no record yet, or
now - last_sig[key] > window. -/
def gateCond {K : Type} [DecidableEq K] (w : ℤ) (m : List (K × ℤ)) (k : K) (now : ℤ) : Bool :=
  match gateLookup m k with
  | none => true
  | some t => decide (w < now - t)

/-- src/index.py lines 420-429 for one key: when the admission test passes the
send is attempted, and only a successful send records the timestamp (the
assignment last_sig[key] = now sits after bot.send_message inside the try
block).  Returns whether the alert was admitted, and the new map. -/
def scanStep {K : Type} [DecidableEq K] (w : ℤ) (m : List (K × ℤ)) (k : K) (now : ℤ)
    (sendOk : Bool) : Bool × List (K × ℤ) :=
  if gateCond w m k now then (true, if sendOk then gateInsert m k now else m)
  else (false, m)

/-- The alert-gate operation on the successful-send path. -/
def gateAdmit {K : Type} [DecidableEq K] (w : ℤ) (m : List (K × ℤ)) (k : K) (now : ℤ) :
    Bool × List (K × ℤ) :=
  scanStep w m k now true

/-- The validity window in seconds: signal_validity_min * 60 (src/index.py
line 422). -/
def validityWindow (st : Settings) : ℤ :=
  st.signal_validity_min * 60

/-- Text form of the side as it appears inside the message. -/
def sideText : Side → String
  | Side.BUY => "BUY"
  | Side.SELL => "SELL"

/-- The dedup key of src/index.py line 420: chat id, symbol, interval and side
joined by pipes. -/
def alertKey (chat sym interval : String) (side : Side) : String :=
  chat ++ ("|") ++ sym ++ ("|") ++ interval ++ ("|") ++ sideText side

/-- Folding the scanner step with successful sends over a list of keys at time
zero, starting from a given map. -/
def gateFold (w : ℤ) (ks : List ℕ) (m : List (ℕ × ℤ)) : List (ℕ × ℤ) :=
  ks.foldl (fun acc k => (scanStep w acc k 0 true).2) m

/-- Outcomes of add_coin (src/index.py lines 87-98), abstracting the three
reply messages. -/
inductive AddResult
  | alreadyInWatchlist
  | notFoundOnBinance
  | added
  deriving DecidableEq

/-- symbol.upper().strip() (src/index.py line 88), on strings modelled as
character lists: uppercase every character, then drop whitespace from both
ends. -/
def normSymbol (s : List Char) : List Char :=
  (((s.map Char.toUpper).dropWhile Char.isWhitespace).reverse.dropWhile
    Char.isWhitespace).reverse

/-- add_coin (src/index.py lines 87-98): normalise the symbol with
upper().strip(), reject duplicates before the network probe, and append the
normalised symbol only when the klines probe (the ok parameter) succeeds. -/
def add_coin (lst : List (List Char)) (symbol : List Char) (ok : Bool) :
    AddResult × List (List Char) :=
  let s := normSymbol symbol
  if s ∈ lst then (AddResult.alreadyInWatchlist, lst)
  else if !ok then (AddResult.notFoundOnBinance, lst)
  else (AddResult.added, lst ++ [s])

/-- Vote counting of spec section 4.2, restricted to the three indicators the
code computes (spec-side definition, written from the spec for comparison with
the code): BUY votes from RSI at-or-below oversold, MACD above signal, EMA20
above EMA50. -/
def specBuyVotes (st : Settings) (v : Ind) : ℕ :=
  (if v.rsi ≤ st.rsi_buy then 1 else 0) + (if v.macd > v.macd_sig then 1 else 0) +
    (if v.ema20 > v.ema50 then 1 else 0)

/-- SELL votes of spec section 4.2 (spec-side definition): RSI at-or-above
overbought, MACD below signal, and the EMA vote goes to SELL in the else
branch. -/
def specSellVotes (st : Settings) (v : Ind) : ℕ :=
  (if v.rsi ≥ st.rsi_sell then 1 else 0) + (if v.macd < v.macd_sig then 1 else 0) +
    (if v.ema20 ≤ v.ema50 then 1 else 0)

/-- The direction rule claimed in C3 (spec-side definition): majority vote
with a min_confirmations floor. -/
def specDirection (minConf : ℕ) (st : Settings) (v : Ind) : Option Side :=
  if specBuyVotes st v > specSellVotes st v ∧ specBuyVotes st v ≥ minConf then some Side.BUY
  else if specSellVotes st v > specBuyVotes st v ∧ specSellVotes st v ≥ minConf then
    some Side.SELL
  else none

/-- A market snapshot whose per-timeframe directions are BUY, BUY, SELL: the
one-hour data satisfies the SELL rule, every other timeframe the BUY rule. -/
def snapBBS : Tf → Ind
  | Tf.h1 => ⟨100, 80, -1, 0, 1, 2, some 1⟩
  | _ => ⟨100, 20, 1, 0, 2, 1, some 1⟩

theorem gateLookup_gateInsert_self {K : Type} [DecidableEq K] (m : List (K × ℤ)) (k : K)
    (t : ℤ) : gateLookup (gateInsert m k t) k = some t := by
  induction m with
  | nil => simp [gateInsert, gateLookup]
  | cons p rest ih =>
    obtain ⟨k', t'⟩ := p
    by_cases h : k' = k
    · simp [gateInsert, gateLookup, h]
    · simp [gateInsert, gateLookup, h, ih]

/-- C1: the alert gate admits the first alert for a key and records its time;
a repeat for the same key at t0 + window - 1 (inside the validity window) is
suppressed with the recorded state unchanged; a repeat at t0 + window + 1 is
admitted again and the recorded time updated. -/
theorem c1_alert_gate_window (K : Type) [DecidableEq K] (k : K) (w t0 : ℤ)
    (m : List (K × ℤ)) (h : gateLookup m k = none) :
    (gateAdmit w m k t0).1 = true ∧
    gateLookup (gateAdmit w m k t0).2 k = some t0 ∧
    gateAdmit w (gateAdmit w m k t0).2 k (t0 + w - 1) = (false, (gateAdmit w m k t0).2) ∧
    (gateAdmit w (gateAdmit w m k t0).2 k (t0 + w + 1)).1 = true ∧
    gateLookup (gateAdmit w (gateAdmit w m k t0).2 k (t0 + w + 1)).2 k = some (t0 + w + 1) := by
  have h1 : gateCond w m k t0 = true := by simp [gateCond, h]
  have hstep : gateAdmit w m k t0 = (true, gateInsert m k t0) := by
    simp [gateAdmit, scanStep, h1]
  have hl : gateLookup (gateInsert m k t0) k = some t0 := gateLookup_gateInsert_self m k t0
  have h2 : gateCond w (gateInsert m k t0) k (t0 + w - 1) = false := by
    simp [gateCond, hl]
    omega
  have h3 : gateCond w (gateInsert m k t0) k (t0 + w + 1) = true := by
    simp [gateCond, hl]
    omega
  refine ⟨by rw [hstep], by rw [hstep]; exact hl, ?_, ?_, ?_⟩
  · rw [hstep]
    simp [gateAdmit, scanStep, h2]
  · rw [hstep]
    simp [gateAdmit, scanStep, h3]
  · rw [hstep]
    simp [gateAdmit, scanStep, h3, gateLookup_gateInsert_self]

/-- Concrete run of the C1 theorem: default settings give a 15 * 60 second
window, and the key follows the chat|symbol|interval|side format. -/
theorem c1_alert_gate_window_witness :
    (gateAdmit (validityWindow ⟨30, 70, 15, 20⟩) []
        (alertKey ("7") ("BTCUSDT") ("15m") Side.BUY) 1000).1 = true ∧
    gateLookup (gateAdmit (validityWindow ⟨30, 70, 15, 20⟩) []
        (alertKey ("7") ("BTCUSDT") ("15m") Side.BUY) 1000).2
      (alertKey ("7") ("BTCUSDT") ("15m") Side.BUY) = some 1000 ∧
    gateAdmit (validityWindow ⟨30, 70, 15, 20⟩)
        (gateAdmit (validityWindow ⟨30, 70, 15, 20⟩) []
          (alertKey ("7") ("BTCUSDT") ("15m") Side.BUY) 1000).2
        (alertKey ("7") ("BTCUSDT") ("15m") Side.BUY)
        (1000 + validityWindow ⟨30, 70, 15, 20⟩ - 1) =
      (false, (gateAdmit (validityWindow ⟨30, 70, 15, 20⟩) []
          (alertKey ("7") ("BTCUSDT") ("15m") Side.BUY) 1000).2) ∧
    (gateAdmit (validityWindow ⟨30, 70, 15, 20⟩)
        (gateAdmit (validityWindow ⟨30, 70, 15, 20⟩) []
          (alertKey ("7") ("BTCUSDT") ("15m") Side.BUY) 1000).2
        (alertKey ("7") ("BTCUSDT") ("15m") Side.BUY)
        (1000 + validityWindow ⟨30, 70, 15, 20⟩ + 1)).1 = true ∧
    gateLookup (gateAdmit (validityWindow ⟨30, 70, 15, 20⟩)
        (gateAdmit (validityWindow ⟨30, 70, 15, 20⟩) []
          (alertKey ("7") ("BTCUSDT") ("15m") Side.BUY) 1000).2
        (alertKey ("7") ("BTCUSDT") ("15m") Side.BUY)
        (1000 + validityWindow ⟨30, 70, 15, 20⟩ + 1)).2
      (alertKey ("7") ("BTCUSDT") ("15m") Side.BUY) =
      some (1000 + validityWindow ⟨30, 70, 15, 20⟩ + 1) :=
  c1_alert_gate_window String (alertKey ("7") ("BTCUSDT") ("15m") Side.BUY)
    (validityWindow ⟨30, 70, 15, 20⟩) 1000 [] rfl

theorem pdDiff_length (xs : List ℚ) : (pdDiff xs).length = xs.length := by
  cases xs with
  | nil => rfl
  | cons x rest => simp [pdDiff]

theorem rollingMean_length (p : ℕ) (xs : List (Option ℚ)) :
    (rollingMean p xs).length = xs.length := by
  simp [rollingMean]

theorem rollingMean_all_none (p : ℕ) (l : List (Option ℚ)) (hlen : l.length ≤ p)
    (hhead : l.head? = some none) : ∀ o ∈ rollingMean p l, o = none := by
  intro o ho
  simp only [rollingMean, List.mem_map, List.mem_range] at ho
  obtain ⟨i, hi, rfl⟩ := ho
  by_cases hip : i + 1 < p
  · simp [hip]
  · cases l with
    | nil => simp at hi
    | cons a t =>
      have ha : a = none := by simpa using hhead
      subst ha
      have h0 : i + 1 - p = 0 := by
        simp only [List.length_cons] at hi hlen
        omega
      simp [hip, h0, List.take_succ_cons]

theorem optDiv_none_left (b : Option ℚ) : optDiv none b = none := by
  cases b <;> rfl

theorem zipWith_optDiv_none (l₁ l₂ : List (Option ℚ)) (h : ∀ a ∈ l₁, a = none) :
    ∀ c ∈ List.zipWith optDiv l₁ l₂, c = none := by
  induction l₁ generalizing l₂ with
  | nil =>
    intro c hc
    simp at hc
  | cons a t ih =>
    intro c hc
    cases l₂ with
    | nil => simp at hc
    | cons b t₂ =>
      have ha : a = none := h a (by simp)
      subst ha
      rw [List.zipWith_cons_cons, optDiv_none_left] at hc
      rcases List.mem_cons.mp hc with hc | hc
      · exact hc
      · exact ih t₂ (fun x hx => h x (List.mem_cons_of_mem _ hx)) c hc

theorem map_getD_of_all_none (l : List (Option ℚ)) (h : ∀ o ∈ l, o = none) :
    l.map (fun o => o.getD 50) = List.replicate l.length 50 := by
  induction l with
  | nil => rfl
  | cons a t ih =>
    have ha : a = none := h a (by simp)
    subst ha
    simp only [List.map_cons, List.length_cons, List.replicate_succ, Option.getD_none]
    rw [ih (fun o ho => h o (by simp [ho]))]

/-- C2 counterexample: a three-candle series has fewer than period + 1 = 15
candles, so the RSI value is genuinely unavailable (the pre-fillna pipeline is
NaN at every position), yet rsi returns the numeric value 50 at every
position: the trailing fillna(50) masks the unavailable value with exactly the
fixed sentinel number the claim rules out. -/
theorem c2_rsi_counterexample :
    [(1 : ℚ), 2, 3].length < 14 + 1 ∧
    rsiRaw 14 [(1 : ℚ), 2, 3] = [none, none, none] ∧
    rsi [(1 : ℚ), 2, 3] 14 = [50, 50, 50] := by decide

/-- C2 amended: for a series with fewer than period + 1 = 15 candles rsi does
not raise, but it also does not report the value unavailable: the value before
fillna is NaN at every position, and fillna(50) turns every position into the
fixed number 50. -/
theorem c2_rsi_short_sentinel (xs : List ℚ) (h : xs.length < 15) :
    (∀ o ∈ rsiRaw 14 xs, o = none) ∧ rsi xs 14 = List.replicate xs.length 50 := by
  have hall : ∀ o ∈ rollingMean 14 (rsiUp xs), o = none := by
    cases xs with
    | nil =>
      intro o ho
      simp [rsiUp, pdDiff, rollingMean] at ho
    | cons x rest =>
      apply rollingMean_all_none
      · simp only [rsiUp, List.length_map, pdDiff_length]
        simp at h ⊢
        omega
      · simp [rsiUp, pdDiff]
  have hraw : ∀ o ∈ rsiRaw 14 xs, o = none := by
    intro o ho
    simp only [rsiRaw, List.mem_map] at ho
    obtain ⟨c, hc, rfl⟩ := ho
    rw [zipWith_optDiv_none _ _ hall c hc]
    rfl
  have hlen : (rsiRaw 14 xs).length = xs.length := by
    simp [rsiRaw, rsiRS, rollingMean_length, rsiUp, rsiDown, pdDiff_length]
  exact ⟨hraw, by rw [rsi, map_getD_of_all_none _ hraw, hlen]⟩

/-- Concrete run of the C2 amended theorem on a two-candle series. -/
theorem c2_rsi_short_sentinel_witness :
    rsi [(1 : ℚ), 2] 14 = List.replicate ([(1 : ℚ), 2].length) 50 :=
  (c2_rsi_short_sentinel [(1 : ℚ), 2] (by decide)).2

/-- C3 counterexample: with min_confirmations = 2, a snapshot casting two BUY
votes (RSI 20 below oversold 30, MACD above signal) against one SELL vote
(EMA20 below EMA50) is a BUY by the claimed vote rule, but generate_signal
requires all three conditions at once and produces no signal. -/
theorem c3_votes_counterexample :
    specBuyVotes ⟨30, 70, 15, 20⟩ ⟨100, 20, 1, 0, 1, 2, some 1⟩ = 2 ∧
    specSellVotes ⟨30, 70, 15, 20⟩ ⟨100, 20, 1, 0, 1, 2, some 1⟩ = 1 ∧
    specDirection 2 ⟨30, 70, 15, 20⟩ ⟨100, 20, 1, 0, 1, 2, some 1⟩ = some Side.BUY ∧
    signalSide ⟨30, 70, 15, 20⟩ ⟨100, 20, 1, 0, 1, 2, some 1⟩ = none := by
  decide

/-- C3 amended: the code does no vote counting and has no min_confirmations
parameter; the per-timeframe direction is BUY exactly when all three BUY
conditions hold (RSI strictly below the buy threshold, MACD above signal,
EMA20 above EMA50), and SELL exactly when all three opposite conditions
hold. -/
theorem c3_all_conditions_required (st : Settings) (v : Ind) :
    (signalSide st v = some Side.BUY ↔
      v.rsi < st.rsi_buy ∧ v.macd > v.macd_sig ∧ v.ema20 > v.ema50) ∧
    (signalSide st v = some Side.SELL ↔
      v.rsi > st.rsi_sell ∧ v.macd < v.macd_sig ∧ v.ema20 < v.ema50) := by
  unfold signalSide
  split_ifs with h1 h2
  · have hns : ¬(v.rsi > st.rsi_sell ∧ v.macd < v.macd_sig ∧ v.ema20 < v.ema50) :=
      fun hs => lt_asymm h1.2.1 hs.2.1
    simp [h1, hns]
  · have hnb : ¬(v.rsi < st.rsi_buy ∧ v.macd > v.macd_sig ∧ v.ema20 > v.ema50) :=
      fun hb => lt_asymm h2.2.1 hb.2.1
    simp [h2, hnb]
  · simp [h1, h2]

/-- C4 counterexample: the per-timeframe directions at 5m, 15m and 1h are BUY,
BUY and SELL, a disagreement, yet a subscription at 5m still has a qualifying
alert: the scanner consults only its single subscribed timeframe, so the
claimed disagreement veto does not exist. -/
theorem c4_disagreement_counterexample :
    signalSide ⟨30, 70, 15, 20⟩ (snapBBS Tf.m5) = some Side.BUY ∧
    signalSide ⟨30, 70, 15, 20⟩ (snapBBS Tf.m15) = some Side.BUY ∧
    signalSide ⟨30, 70, 15, 20⟩ (snapBBS Tf.h1) = some Side.SELL ∧
    alertQualifies ⟨30, 70, 15, 20⟩ (fun i => some (snapBBS i)) Tf.m5 = true := by
  decide

/-- C4 amended: alert qualification for a subscription depends only on the
data of its single subscribed timeframe; changing every other timeframe's data
never changes the decision, so there is no cross-timeframe agreement veto and
no ultra tier in the code. -/
theorem c4_single_timeframe_only (st : Settings) (snap snap' : Tf → Option Ind)
    (i : Tf) (h : snap i = snap' i) :
    alertQualifies st snap i = alertQualifies st snap' i := by
  unfold alertQualifies
  rw [h]

/-- Concrete run of the C4 amended theorem: two snapshot assignments differing
everywhere off the subscribed 5m timeframe give the same decision. -/
theorem c4_single_timeframe_only_witness :
    alertQualifies ⟨30, 70, 15, 20⟩ (fun _ => none) Tf.m5 =
      alertQualifies ⟨30, 70, 15, 20⟩
        (fun i => match i with | Tf.m5 => none | _ => some (snapBBS i)) Tf.m5 :=
  c4_single_timeframe_only ⟨30, 70, 15, 20⟩ (fun _ => none)
    (fun i => match i with | Tf.m5 => none | _ => some (snapBBS i)) Tf.m5 rfl

theorem effAtr_pos (atr_v : Option ℚ) (price : ℚ) (h : 0 < price) :
    0 < effAtr atr_v price := by
  have hp : 0 < price * (5 / 1000 : ℚ) := mul_pos h (by norm_num)
  cases atr_v with
  | none => simpa [effAtr] using hp
  | some a =>
    by_cases ha : a > 0
    · simp [effAtr, ha]
    · simpa [effAtr, ha] using hp

/-- C5: for a positive last price the BUY plan satisfies
stop_loss < entry < take_profit_1 < take_profit_2, the SELL plan the reverse
strict chain, and the entry equals the last price, whatever the ATR value. -/
theorem c5_trade_plan_ordering (price : ℚ) (atr_v : Option ℚ) (h : 0 < price) :
    ((tradePlan Side.BUY price atr_v).sl < (tradePlan Side.BUY price atr_v).entry ∧
      (tradePlan Side.BUY price atr_v).entry < (tradePlan Side.BUY price atr_v).tp1 ∧
      (tradePlan Side.BUY price atr_v).tp1 < (tradePlan Side.BUY price atr_v).tp2) ∧
    (tradePlan Side.BUY price atr_v).entry = price ∧
    ((tradePlan Side.SELL price atr_v).tp2 < (tradePlan Side.SELL price atr_v).tp1 ∧
      (tradePlan Side.SELL price atr_v).tp1 < (tradePlan Side.SELL price atr_v).entry ∧
      (tradePlan Side.SELL price atr_v).entry < (tradePlan Side.SELL price atr_v).sl) ∧
    (tradePlan Side.SELL price atr_v).entry = price := by
  have ha := effAtr_pos atr_v price h
  refine ⟨⟨?_, ?_, ?_⟩, ?_, ⟨?_, ?_, ?_⟩, ?_⟩ <;> simp only [tradePlan] <;> linarith

/-- Concrete run of the C5 theorem at price 100 with ATR 2. -/
theorem c5_trade_plan_ordering_witness :
    ((tradePlan Side.BUY 100 (some 2)).sl < (tradePlan Side.BUY 100 (some 2)).entry ∧
      (tradePlan Side.BUY 100 (some 2)).entry < (tradePlan Side.BUY 100 (some 2)).tp1 ∧
      (tradePlan Side.BUY 100 (some 2)).tp1 < (tradePlan Side.BUY 100 (some 2)).tp2) ∧
    (tradePlan Side.BUY 100 (some 2)).entry = 100 ∧
    ((tradePlan Side.SELL 100 (some 2)).tp2 < (tradePlan Side.SELL 100 (some 2)).tp1 ∧
      (tradePlan Side.SELL 100 (some 2)).tp1 < (tradePlan Side.SELL 100 (some 2)).entry ∧
      (tradePlan Side.SELL 100 (some 2)).entry < (tradePlan Side.SELL 100 (some 2)).sl) ∧
    (tradePlan Side.SELL 100 (some 2)).entry = 100 :=
  c5_trade_plan_ordering 100 (some 2) (by norm_num)

/-- C6 counterexample: an admitted alert whose send fails records nothing,
unlike the successful send which records the timestamp, and the same key is
admitted again 600 seconds later, well inside the 900 second window, while
after a successful send it would have been suppressed. -/
theorem c6_send_failure_counterexample :
    (scanStep 900 ([] : List (ℕ × ℤ)) 0 1000 false).1 = true ∧
    (scanStep 900 ([] : List (ℕ × ℤ)) 0 1000 false).2 = [] ∧
    (scanStep 900 ([] : List (ℕ × ℤ)) 0 1000 true).2 = [(0, 1000)] ∧
    (scanStep 900 (scanStep 900 ([] : List (ℕ × ℤ)) 0 1000 false).2 0 1600 true).1 = true ∧
    (scanStep 900 (scanStep 900 ([] : List (ℕ × ℤ)) 0 1000 true).2 0 1600 true).1 = false := by
  decide

/-- C6 amended: a failed send leaves the alert-gate state exactly as it was,
because the timestamp is recorded only after a successful send; in particular
an admitted-but-undelivered alert for a previously unseen key is admitted
again by any later scan, however soon. -/
theorem c6_send_failure_state (K : Type) [DecidableEq K] (w : ℤ) (m : List (K × ℤ))
    (k : K) (now : ℤ) :
    (scanStep w m k now false).2 = m ∧
    (gateLookup m k = none →
      ∀ now' : ℤ, (scanStep w (scanStep w m k now false).2 k now' true).1 = true) := by
  have h2 : (scanStep w m k now false).2 = m := by
    unfold scanStep
    split <;> simp
  refine ⟨h2, fun h now' => ?_⟩
  rw [h2]
  simp [scanStep, gateCond, h]

/-- Concrete run of the C6 amended theorem. -/
theorem c6_send_failure_state_witness :
    (scanStep 900 ([] : List (ℕ × ℤ)) 3 1000 false).2 = [] ∧
    (scanStep 900 (scanStep 900 ([] : List (ℕ × ℤ)) 3 1000 false).2 3 1600 true).1 = true :=
  ⟨(c6_send_failure_state ℕ 900 [] 3 1000).1,
    (c6_send_failure_state ℕ 900 [] 3 1000).2 rfl 1600⟩

/-- C7 counterexample: RSI exactly at the oversold threshold 30 with MACD
above signal and EMA20 above EMA50 produces no signal, and RSI exactly at the
overbought threshold 70 with MACD below signal and EMA20 below EMA50 also
produces none: the code compares strictly on both sides. -/
theorem c7_boundary_counterexample :
    signalSide ⟨30, 70, 15, 20⟩ ⟨100, 30, 1, 0, 2, 1, some 1⟩ = none ∧
    signalSide ⟨30, 70, 15, 20⟩ ⟨100, 70, -1, 0, 1, 2, some 1⟩ = none := by
  decide

/-- C7 amended: the RSI threshold comparisons are exclusive: at RSI exactly
equal to the buy threshold no BUY is produced, and at RSI exactly equal to the
sell threshold no SELL is produced, whatever the other indicators say. -/
theorem c7_boundary_exclusive (st : Settings) (v : Ind) :
    (v.rsi = st.rsi_buy → signalSide st v ≠ some Side.BUY) ∧
    (v.rsi = st.rsi_sell → signalSide st v ≠ some Side.SELL) := by
  constructor
  · intro he
    unfold signalSide
    split_ifs with h1 h2
    · exfalso
      rw [he] at h1
      exact lt_irrefl _ h1.1
    · simp
    · simp
  · intro he
    unfold signalSide
    split_ifs with h1 h2
    · simp
    · exfalso
      rw [he] at h2
      exact lt_irrefl _ h2.1
    · simp

/-- Concrete run of the C7 amended theorem at both thresholds. -/
theorem c7_boundary_exclusive_witness :
    signalSide ⟨30, 70, 15, 20⟩ ⟨100, 30, 1, 0, 2, 1, some 2⟩ ≠ some Side.BUY ∧
    signalSide ⟨30, 70, 15, 20⟩ ⟨100, 70, -1, 0, 1, 2, some 2⟩ ≠ some Side.SELL :=
  ⟨(c7_boundary_exclusive ⟨30, 70, 15, 20⟩ ⟨100, 30, 1, 0, 2, 1, some 2⟩).1 rfl,
    (c7_boundary_exclusive ⟨30, 70, 15, 20⟩ ⟨100, 70, -1, 0, 1, 2, some 2⟩).2 rfl⟩

/-- C8 counterexample: with cap 0 and an unavailable ATR the fallback
max(1, min(cap, 10)) returns 1, which exceeds the configured cap. -/
theorem c8_cap_counterexample :
    leverage_suggestion none 1 0 = 1 ∧ ¬(leverage_suggestion none 1 0 ≤ 0) := by
  decide

/-- C8 amended: for any cap of at least 1 the suggestion always lies between 1
and the cap, whatever the ATR and price inputs; the code derives leverage from
ATR, price and cap by inverse volatility scaling and takes no score input, so
no score-to-leverage table exists. -/
theorem c8_leverage_bounds (atr_value : Option ℚ) (price : ℚ) (cap : ℤ) (h : 1 ≤ cap) :
    1 ≤ leverage_suggestion atr_value price cap ∧
      leverage_suggestion atr_value price cap ≤ cap := by
  cases atr_value with
  | none =>
    simp only [leverage_suggestion]
    constructor <;> omega
  | some a =>
    simp only [leverage_suggestion]
    split_ifs with h1 h2
    · constructor <;> omega
    · constructor <;> omega
    · generalize pyRound ((1 : ℚ) / 2 / (a / price)) = r
      constructor <;> omega

/-- Concrete run of the C8 amended theorem at the default cap 20. -/
theorem c8_leverage_bounds_witness :
    1 ≤ leverage_suggestion none 1 20 ∧ leverage_suggestion none 1 20 ≤ 20 :=
  c8_leverage_bounds none 1 20 (by decide)

theorem gateInsert_length_of_none {K : Type} [DecidableEq K] (m : List (K × ℤ)) (k : K)
    (t : ℤ) (h : gateLookup m k = none) : (gateInsert m k t).length = m.length + 1 := by
  induction m with
  | nil => rfl
  | cons p rest ih =>
    obtain ⟨k', t'⟩ := p
    by_cases hk : k' = k
    · simp [gateLookup, hk] at h
    · simp only [gateLookup, if_neg hk] at h
      simp [gateInsert, hk, ih h]

theorem le_gateInsert_length {K : Type} [DecidableEq K] (m : List (K × ℤ)) (k : K) (t : ℤ) :
    m.length ≤ (gateInsert m k t).length := by
  induction m with
  | nil => simp [gateInsert]
  | cons p rest ih =>
    obtain ⟨k', t'⟩ := p
    by_cases hk : k' = k
    · simp [gateInsert, hk]
    · simp only [gateInsert, if_neg hk, List.length_cons]
      omega

theorem gateLookup_gateInsert_ne {K : Type} [DecidableEq K] (m : List (K × ℤ)) (k : K)
    (t : ℤ) (k' : K) (h : k' ≠ k) :
    gateLookup (gateInsert m k t) k' = gateLookup m k' := by
  induction m with
  | nil => simp [gateInsert, gateLookup, Ne.symm h]
  | cons p rest ih =>
    obtain ⟨a, b⟩ := p
    by_cases hk : a = k
    · subst hk
      simp [gateInsert, gateLookup, Ne.symm h]
    · simp [gateInsert, hk, gateLookup, ih]

theorem gateFold_length (w : ℤ) (ks : List ℕ) (m : List (ℕ × ℤ)) (hnd : ks.Nodup)
    (hfresh : ∀ k ∈ ks, gateLookup m k = none) :
    (gateFold w ks m).length = m.length + ks.length := by
  induction ks generalizing m with
  | nil => simp [gateFold]
  | cons k ks' ih =>
    have hk : gateLookup m k = none := hfresh k (by simp)
    have hstep : (scanStep w m k 0 true).2 = gateInsert m k 0 := by
      simp [scanStep, gateCond, hk]
    have hfresh' : ∀ k' ∈ ks', gateLookup (gateInsert m k 0) k' = none := by
      intro k' hk'
      have hne : k' ≠ k := by
        rintro rfl
        exact (List.nodup_cons.mp hnd).1 hk'
      rw [gateLookup_gateInsert_ne m k 0 k' hne]
      exact hfresh k' (List.mem_cons_of_mem _ hk')
    have hfold : gateFold w (k :: ks') m = gateFold w ks' (gateInsert m k 0) := by
      simp [gateFold, hstep]
    rw [hfold, ih (gateInsert m k 0) (List.nodup_cons.mp hnd).2 hfresh',
      gateInsert_length_of_none m k 0 hk]
    simp only [List.length_cons]
    omega

/-- C9 counterexample: admitting 2001 distinct keys leaves the last_sig map
with 2001 entries, above the claimed 2000-key cap; no eviction ever runs. -/
theorem c9_unbounded_counterexample :
    (gateFold 900 (List.range 2001) []).length = 2001 ∧ 2000 < 2001 := by
  constructor
  · rw [gateFold_length 900 (List.range 2001) [] (List.nodup_range 2001)
      (fun k _ => rfl)]
    simp
  · omega

/-- C9 amended: the last_sig map has no size cap and no eviction policy: a
scan step never removes entries, and a successful send for a fresh key grows
the map by exactly one entry, so the map size is unbounded in the number of
distinct keys seen. -/
theorem c9_no_eviction (K : Type) [DecidableEq K] (w : ℤ) (m : List (K × ℤ)) (k : K)
    (now : ℤ) (sendOk : Bool) :
    m.length ≤ ((scanStep w m k now sendOk).2).length ∧
    (gateLookup m k = none → ((scanStep w m k now true).2).length = m.length + 1) := by
  constructor
  · unfold scanStep
    split
    · dsimp only
      split
      · exact le_gateInsert_length m k now
      · exact le_refl _
    · exact le_refl _
  · intro h
    simp [scanStep, gateCond, h, gateInsert_length_of_none m k now h]

/-- Concrete run of the C9 amended theorem on an empty map. -/
theorem c9_no_eviction_witness :
    ([] : List (ℕ × ℤ)).length ≤ ((scanStep 900 ([] : List (ℕ × ℤ)) 5 0 true).2).length ∧
    ((scanStep 900 ([] : List (ℕ × ℤ)) 5 0 true).2).length = ([] : List (ℕ × ℤ)).length + 1 :=
  ⟨(c9_no_eviction ℕ 900 [] 5 0 true).1, (c9_no_eviction ℕ 900 [] 5 0 true).2 rfl⟩

/-- C10: adding a symbol whose normalised (uppercased, trimmed) form is
already in the watchlist reports it as already present and leaves the list
unchanged; a successful add puts the normalised symbol in the list, so adding
the same symbol again is a no-op; add_coin preserves duplicate-freeness and
only ever appends normalised symbols. -/
theorem c10_add_coin_dedup (lst : List (List Char)) (symbol : List Char) (ok : Bool) :
    (normSymbol symbol ∈ lst →
      add_coin lst symbol ok = (AddResult.alreadyInWatchlist, lst)) ∧
    (ok = true → normSymbol symbol ∈ (add_coin lst symbol ok).2) ∧
    (∀ ok2 : Bool, ok = true →
      add_coin (add_coin lst symbol ok).2 symbol ok2 =
        (AddResult.alreadyInWatchlist, (add_coin lst symbol ok).2)) ∧
    (lst.Nodup → ((add_coin lst symbol ok).2).Nodup) ∧
    (∀ e ∈ (add_coin lst symbol ok).2, e ∈ lst ∨ e = normSymbol symbol) := by
  by_cases hm : normSymbol symbol ∈ lst
  · refine ⟨fun _ => by simp [add_coin, hm], fun _ => by simp [add_coin, hm, hm],
      fun ok2 _ => by simp [add_coin, hm], fun hn => by simp [add_coin, hm, hn],
      fun e he => ?_⟩
    simp only [add_coin, if_pos hm] at he
    exact Or.inl he
  · cases ok with
    | false =>
      refine ⟨fun hc => absurd hc hm, fun hc => by simp at hc,
        fun ok2 hc => by simp at hc, fun hn => by simp [add_coin, hm, hn],
        fun e he => ?_⟩
      simp only [add_coin, if_neg hm] at he
      exact Or.inl he
    | true =>
      have hres : (add_coin lst symbol true).2 = lst ++ [normSymbol symbol] := by
        simp [add_coin, hm]
      refine ⟨fun hc => absurd hc hm, fun _ => by simp [hres],
        fun ok2 _ => ?_, fun hn => ?_, fun e he => ?_⟩
      · rw [hres]
        have hmem : normSymbol symbol ∈ lst ++ [normSymbol symbol] := by simp
        simp [add_coin, hmem]
      · rw [hres]
        simp [List.nodup_append, hn, hm]
      · rw [hres] at he
        simpa using List.mem_append.mp he

/-- Concrete run of the C10 theorem: a lowercase symbol with trailing space
normalises onto the existing entry and the add is rejected without change. -/
theorem c10_add_coin_dedup_witness :
    add_coin [['B', 'T', 'C', 'U', 'S', 'D', 'T']] ['b', 't', 'c', 'u', 's', 'd', 't', ' ']
        true =
      (AddResult.alreadyInWatchlist, [['B', 'T', 'C', 'U', 'S', 'D', 'T']]) :=
  (c10_add_coin_dedup [['B', 'T', 'C', 'U', 'S', 'D', 'T']]
    ['b', 't', 'c', 'u', 's', 'd', 't', ' '] true).1 (by decide)
